import Mathlib

/-!
Shallow embedding of the fabrication run controller of `bf3dp_fab`
(`src/bf3dp_fab/run/__main__.py`), together with theorems checking the
natural-language specification against it.

Coordinates and joint angles are modelled as rationals; the robot command
stream is modelled as an explicit list of events, each tagged with whether
the controller awaits its completion (`send_and_wait`) or fires it off
(`send`).
-/

namespace BF3DP

/-- A 3D point (also used for direction vectors), as in `compas.geometry.Point`. -/
structure Point3 where
  x : ℚ
  y : ℚ
  z : ℚ
deriving DecidableEq

/-- A pose: position plus x/y orientation axes, as in `compas.geometry.Frame`. -/
structure Frame where
  point : Point3
  xaxis : Point3
  yaxis : Point3
deriving DecidableEq

/-- `STEPPER_FORWARD_DO = "DO_9"` from the source. -/
def STEPPER_FORWARD_DO : String := "DO_9"

/-- `STEPPER_BACKWARDS_DO = "DO_10"` from the source. -/
def STEPPER_BACKWARDS_DO : String := "DO_10"

/-- `PRESSURE_DO = "DO_1"` from the source. -/
def PRESSURE_DO : String := "DO_1"

/-- `TRAVEL_SPEED = 250` from the source. -/
def TRAVEL_SPEED : ℚ := 250

/-- `PRINT_SPEED = 250` from the source. -/
def PRINT_SPEED : ℚ := 250

/-- `Z_HOP = 30` from the source. -/
def Z_HOP : ℚ := 30

/-- `EXTRUSION_SPEED_MM_PER_SEC = 10.6` from the source. -/
def EXTRUSION_SPEED_MM_PER_SEC : ℚ := 53 / 5

/-- `EXTRUSION_LENGTH = 28` from the source. -/
def EXTRUSION_LENGTH : ℚ := 28

/-- `PAUSE_AT_PT_SECONDS = EXTRUSION_LENGTH / EXTRUSION_SPEED_MM_PER_SEC`. -/
def PAUSE_AT_PT_SECONDS : ℚ := EXTRUSION_LENGTH / EXTRUSION_SPEED_MM_PER_SEC

/-- `START_FROM = 449` from the source. -/
def START_FROM : Nat := 449

/-- `HOME_POS = RobotJoints([0, 0, 0, 0, 0, 180])`. -/
def HOME_POS : List ℚ := [0, 0, 0, 0, 0, 180]

/-- `RESET_POS = RobotJoints([0, 0, 10, 0, 20, 180])`. -/
def RESET_POS : List ℚ := [0, 0, 10, 0, 20, 180]

/-- `DRY_RUN = False` from the source. -/
def DRY_RUN : Bool := false

/-- `OK_RANGES` from the source: per-axis (min, max) joint limits, axes 1..6. -/
def OK_RANGES : List (ℚ × ℚ) :=
  [(-90, 90), (-360, 360), (-180, 180), (-100, 100), (-360, 360), (0, 360)]

/-- The loop body of `is_robot_joints_ok`: walk the zip of the joint reading
with the ranges; at the first pair where `not (min_ < joint < max_)` report
the (0-based) axis index with the range bounds and the offending value, as the
source's early `return False` (and its diagnostic print) does; `none` when
every zipped pair is in range. The zip stops at the shorter list, exactly as
Python's `zip` does. -/
def jointsCheck : List ℚ → List (ℚ × ℚ) → Option (Nat × ℚ × ℚ × ℚ)
  | j :: js, (lo, hi) :: rs =>
      if lo < j ∧ j < hi then
        (jointsCheck js rs).map (fun r => (r.1 + 1, r.2))
      else
        some (0, lo, hi, j)
  | _, _ => none

/-- `is_robot_joints_ok` from the source: `True` iff the walk over
`zip(robot_joints, OK_RANGES)` finds no out-of-range joint. -/
def is_robot_joints_ok (robot_joints : List ℚ) : Bool :=
  (jointsCheck robot_joints OK_RANGES).isNone

/-- Blending zones used by the script (`rrc.Zone.FINE/Z1/Z5/Z10`). -/
inductive Zone where
  | fine
  | z1
  | z5
  | z10
deriving DecidableEq

/-- Interpolation modes used by the script (`rrc.Motion.JOINT/LINEAR`). -/
inductive Motion where
  | joint
  | linear
deriving DecidableEq

/-- The robot commands the script sends through `compas_rrc`. -/
inductive Cmd where
  | setAcceleration (acc ramp : ℚ)
  | setMaxSpeed (override maxTcp : ℚ)
  | setDigital (signal : String) (value : Nat)
  | setTool (tool : String)
  | setWorkObject (wobj : String)
  | moveToJoints (joints : List ℚ) (speed : ℚ) (zone : Zone)
  | moveToFrame (frame : Frame) (speed : ℚ) (zone : Zone) (motion : Motion)
  | waitTime (seconds : ℚ)
  | printText (text : String)
  | getJoints
deriving DecidableEq

/-- A command as issued: `awaited = true` for `send_and_wait`, `false` for
fire-and-forget `send`. -/
structure Event where
  cmd : Cmd
  awaited : Bool
deriving DecidableEq

/-- Whether a command asks the robot to move. -/
def isMotionCmd : Cmd → Bool
  | .moveToJoints _ _ _ => true
  | .moveToFrame _ _ _ _ => true
  | _ => false

/-- Targets of the `MoveToFrame` commands in a trace, in order. -/
def moveTargets (evs : List Event) : List Frame :=
  evs.filterMap fun e =>
    match e.cmd with
    | .moveToFrame f _ _ _ => some f
    | _ => none

/-- Values written to the pressure-supply digital output in a trace, in order. -/
def pressureValues (evs : List Event) : List Nat :=
  evs.filterMap fun e =>
    match e.cmd with
    | .setDigital signal v => if signal = PRESSURE_DO then some v else none
    | _ => none

/-- A default frame, only used to totalise list indexing that the script's
loop bounds keep in range. -/
def defaultFrame : Frame := ⟨⟨0, 0, 0⟩, ⟨1, 0, 0⟩, ⟨0, 1, 0⟩⟩

/-- The `highest_placed` update of the loop body: the first extruded frame is
taken unconditionally (`if not highest_placed`), after that the new frame
replaces the tracked one only when its deposition z is strictly larger. -/
def updatedHighest (highest : Option Frame) (extrudeFrame : Frame) : Frame :=
  match highest with
  | none => extrudeFrame
  | some hp => if hp.point.z < extrudeFrame.point.z then extrudeFrame else hp

/-- The `highest_placed` state after folding the update over a list of
extruded frames, starting from the initial `None`. -/
def highestAfter (frames : List Frame) : Option Frame :=
  frames.foldl (fun h f => some (updatedHighest h f)) none

/-- `safe_midpoint_frame` construction from the source: midpoint of the two
frame origins, x and y kept, z replaced by `highest_placed.point.z + Z_HOP`,
orientation axes taken from the next entry frame. -/
def safeMidpointFrame (currentF nextEntryF : Frame) (highestPlacedZ zHop : ℚ) : Frame :=
  { point := ⟨(currentF.point.x + nextEntryF.point.x) / 2,
              (currentF.point.y + nextEntryF.point.y) / 2,
              highestPlacedZ + zHop⟩,
    xaxis := nextEntryF.xaxis,
    yaxis := nextEntryF.yaxis }

/-- End-of-loop transit section as written in the source: index
`travel_frames[i + 1]` inside `try: ... except IndexError: pass`, modelled by
matching on the optional lookup; on success, one awaited `MoveToFrame` to the
safe midpoint. -/
def transitEvents (entryF : Frame) (next? : Option Frame) (updated : Frame) : List Event :=
  match next? with
  | some nextEntryF =>
      [⟨.moveToFrame (safeMidpointFrame entryF nextEntryF updated.point.z Z_HOP)
          TRAVEL_SPEED .z5 .joint, true⟩]
  | none => []

/-- The spec's reformulation of the end-of-loop transit: an explicit bounds
check `i + 1 < n` (with `n` the length of the travel sequence) guards the
transit move; at the last element the check fails and no transit is issued. -/
def transitEventsSpec (entryF : Frame) (travelFrames : List Frame) (updated : Frame)
    (i : Nat) : List Event :=
  if h : i + 1 < travelFrames.length then
    [⟨.moveToFrame
        (safeMidpointFrame entryF (travelFrames.get ⟨i + 1, h⟩) updated.point.z Z_HOP)
        TRAVEL_SPEED .z5 .joint, true⟩]
  else []

/-- The informational message of step 5 of the cycle. -/
def extrusionDoneMsg (i n : Nat) : String :=
  "Extrusion number " ++ toString i ++ "/" ++ toString n ++ " done."

/-- One iteration of the script's per-element loop, as the list of commands it
issues. `entryF` and `exitF` are the two names bound by
`entry_frame = exit_frame = travel_frames[i]`; `updated` is the
`highest_placed` value after this iteration's update (the update precedes the
transit computation); `reading` is what `GetJoints` returns this iteration. -/
def cycleEvents (dryRun : Bool) (entryF exitF extrudeF : Frame) (next? : Option Frame)
    (updated : Frame) (reading : List ℚ) (i n : Nat) : List Event :=
  [⟨.moveToFrame entryF TRAVEL_SPEED .z1 .joint, false⟩,
   ⟨.moveToFrame extrudeF PRINT_SPEED .fine .linear, false⟩]
  ++ (if !dryRun then [⟨.setDigital STEPPER_FORWARD_DO 1, false⟩] else [])
  ++ [⟨.waitTime PAUSE_AT_PT_SECONDS, false⟩,
      ⟨.setDigital STEPPER_FORWARD_DO 0, false⟩]
  ++ (if !dryRun then
        [⟨.setDigital STEPPER_BACKWARDS_DO 1, false⟩, ⟨.waitTime (1 / 2), false⟩]
      else [])
  ++ [⟨.setDigital STEPPER_BACKWARDS_DO 0, false⟩,
      ⟨.printText (extrusionDoneMsg i n), false⟩,
      ⟨.moveToFrame exitF TRAVEL_SPEED .z1 .linear, false⟩,
      ⟨.getJoints, true⟩]
  ++ (if !is_robot_joints_ok reading then
        [⟨.printText "Resetting joint positions.", false⟩,
         ⟨.moveToJoints RESET_POS TRAVEL_SPEED .z10, false⟩]
      else [])
  ++ transitEvents entryF next? updated

/-- The loop `for i in range(START_FROM, n_extrusions)`, over an explicit list
of indices, threading the `highest_placed` state. -/
def runFrom (dryRun : Bool) (travelFrames extrudeFrames : List Frame)
    (readings : Nat → List ℚ) (n : Nat) : List Nat → Option Frame → List Event
  | [], _ => []
  | i :: rest, highest =>
      let tf := travelFrames.getD i defaultFrame
      let ef := extrudeFrames.getD i defaultFrame
      let updated := updatedHighest highest ef
      cycleEvents dryRun tf tf ef travelFrames[i + 1]? updated (readings i) i n
        ++ runFrom dryRun travelFrames extrudeFrames readings n rest (some updated)

/-- The commands issued before the frames file is loaded: settings, signal
resets, tool/wobj selection, the pressure-supply assert (skipped in dry run),
and the homing move. All fire-and-forget. -/
def preRunEvents (dryRun : Bool) : List Event :=
  [⟨.setAcceleration 100 100, false⟩,
   ⟨.setMaxSpeed 100 250, false⟩,
   ⟨.setDigital STEPPER_FORWARD_DO 0, false⟩,
   ⟨.setDigital STEPPER_BACKWARDS_DO 0, false⟩,
   ⟨.setDigital PRESSURE_DO 0, false⟩,
   ⟨.setTool "t_3dp_clay", false⟩,
   ⟨.setWorkObject "w_3dp_clay", false⟩]
  ++ (if !dryRun then [⟨.setDigital PRESSURE_DO 1, false⟩] else [])
  ++ [⟨.moveToJoints HOME_POS TRAVEL_SPEED .fine, false⟩]

/-- The message of the exception raised on a length mismatch. -/
def lengthMismatchMsg : String :=
  "Lengths of extrude_frames and travel_frames do not match"

/-- The whole `__main__` run: the command trace it emits, paired with the
fatal error it raises, if any. The pre-run commands are sent first; then the
frames are loaded and their lengths compared — a mismatch raises and nothing
further runs (no de-assertion, no homing); otherwise the loop runs from
`startFrom` and the terminal homing and pressure de-assert are sent. -/
def mainRun (dryRun : Bool) (extrudeFrames travelFrames : List Frame)
    (startFrom : Nat) (readings : Nat → List ℚ) : List Event × Option String :=
  let pre := preRunEvents dryRun
  if extrudeFrames.length ≠ travelFrames.length then
    (pre, some lengthMismatchMsg)
  else
    let n := extrudeFrames.length
    (pre
      ++ runFrom dryRun travelFrames extrudeFrames readings n
          (List.range' startFrom (n - startFrom)) none
      ++ [⟨.moveToJoints HOME_POS TRAVEL_SPEED .fine, false⟩,
          ⟨.setDigital PRESSURE_DO 0, false⟩],
     none)

/-- A reading function that always returns the empty joint list; used to
instantiate runs whose readings are irrelevant. -/
def noReadings : Nat → List ℚ := fun _ => []

/-- A reading function that always returns a joint configuration inside every
range. -/
def okReadings : Nat → List ℚ := fun _ => [0, 0, 0, 0, 0, 180]

/-- A frame at height z above the origin, for concrete instances. -/
def frameAtZ (z : ℚ) : Frame := ⟨⟨0, 0, z⟩, ⟨1, 0, 0⟩, ⟨0, 1, 0⟩⟩

/-- The whole check succeeds iff every zipped (joint, range) pair is strictly
inside its range. -/
lemma jointsCheck_none_iff (js : List ℚ) :
    ∀ rs : List (ℚ × ℚ),
      jointsCheck js rs = none ↔ ∀ p ∈ js.zip rs, p.2.1 < p.1 ∧ p.1 < p.2.2 := by
  induction js with
  | nil =>
      intro rs
      simp [jointsCheck]
  | cons j js ih =>
      intro rs
      cases rs with
      | nil => simp [jointsCheck]
      | cons r rs =>
          obtain ⟨lo, hi⟩ := r
          by_cases h : lo < j ∧ j < hi
          · simp [jointsCheck, h, Option.map_eq_none', ih rs]
          · simp [jointsCheck, h]

/-- A reported violation names a really-present axis, with its actual value and
the matching range, that axis is out of range, and every earlier axis is in
range: the check short-circuits at the first violation. -/
lemma jointsCheck_some_spec (js : List ℚ) :
    ∀ (rs : List (ℚ × ℚ)) (k : Nat) (lo hi a : ℚ),
      jointsCheck js rs = some (k, lo, hi, a) →
        js.get? k = some a ∧ rs.get? k = some (lo, hi) ∧ ¬(lo < a ∧ a < hi) ∧
          ∀ m b lo' hi', m < k → js.get? m = some b → rs.get? m = some (lo', hi') →
            lo' < b ∧ b < hi' := by
  induction js with
  | nil =>
      intro rs k lo hi a h
      simp [jointsCheck] at h
  | cons j js ih =>
      intro rs k lo hi a h
      cases rs with
      | nil => simp [jointsCheck] at h
      | cons r rs =>
          obtain ⟨lo₀, hi₀⟩ := r
          by_cases hin : lo₀ < j ∧ j < hi₀
          · simp only [jointsCheck, if_pos hin, Option.map_eq_some'] at h
            obtain ⟨⟨k', lo', hi', a'⟩, hrec, heq⟩ := h
            simp only [Prod.mk.injEq] at heq
            obtain ⟨hk, hlo, hhi, ha⟩ := heq
            subst hk
            obtain ⟨hget, hrng, hviol, hfirst⟩ := ih rs k' lo' hi' a' hrec
            refine ⟨?_, ?_, ?_, ?_⟩
            · simpa [List.get?, hlo, hhi, ha] using hget
            · simpa [List.get?, hlo, hhi] using hrng
            · rw [← hlo, ← hhi, ← ha]; exact hviol
            · intro m b lo'' hi'' hm hjs hrs
              cases m with
              | zero =>
                  simp only [List.get?] at hjs hrs
                  injection hjs with hjs
                  injection hrs with hrs
                  subst hjs
                  simp only [Prod.mk.injEq] at hrs
                  obtain ⟨h1, h2⟩ := hrs
                  subst h1; subst h2
                  exact hin
              | succ m =>
                  exact hfirst m b lo'' hi'' (Nat.lt_of_succ_lt_succ hm) hjs hrs
          · simp only [jointsCheck, if_neg hin, Option.some.injEq, Prod.mk.injEq] at h
            obtain ⟨hk, hlo, hhi, ha⟩ := h
            subst hk
            refine ⟨by simp [List.get?, ha], by simp [List.get?, hlo, hhi], ?_, ?_⟩
            · rw [← hlo, ← hhi, ← ha]; exact hin
            · intro m b lo'' hi'' hm _ _
              exact absurd hm (Nat.not_lt_zero m)

/-- C2: a 6-axis reading passes `is_robot_joints_ok` iff every axis lies
strictly inside its fixed range (so a value exactly at a bound is a
violation), and any reported violation names the lowest-indexed violating
axis, every earlier axis being in range (the walk short-circuits). -/
theorem joints_ok_strict_ranges_first_violation :
    (∀ a b c d e f : ℚ,
      is_robot_joints_ok [a, b, c, d, e, f] = true ↔
        ((-90 < a ∧ a < 90) ∧ (-360 < b ∧ b < 360) ∧ (-180 < c ∧ c < 180) ∧
          (-100 < d ∧ d < 100) ∧ (-360 < e ∧ e < 360) ∧ (0 < f ∧ f < 360)))
    ∧ (∀ (js : List ℚ) (k : Nat) (lo hi a : ℚ),
        jointsCheck js OK_RANGES = some (k, lo, hi, a) →
          is_robot_joints_ok js = false ∧ js.get? k = some a ∧
            OK_RANGES.get? k = some (lo, hi) ∧ ¬(lo < a ∧ a < hi) ∧
            ∀ m b lo' hi', m < k → js.get? m = some b →
              OK_RANGES.get? m = some (lo', hi') → lo' < b ∧ b < hi') := by
  constructor
  · intro a b c d e f
    rw [is_robot_joints_ok, Option.isNone_iff_eq_none, jointsCheck_none_iff]
    simp [OK_RANGES]
  · intro js k lo hi a h
    have h2 := jointsCheck_some_spec js OK_RANGES k lo hi a h
    exact ⟨by simp [is_robot_joints_ok, h], h2.1, h2.2.1, h2.2.2.1, h2.2.2.2⟩

/-- Witness for the previous theorem at a concrete reading: axes 1 and 2 are
both out of range and the check reports axis 1 (index 0). -/
theorem joints_ok_strict_ranges_first_violation_witness :
    is_robot_joints_ok [90, 1000, 0, 0, 0, 180] = false
    ∧ ([90, 1000, 0, 0, 0, 180] : List ℚ).get? 0 = some 90 := by
  have h : jointsCheck [90, 1000, 0, 0, 0, 180] OK_RANGES = some (0, -90, 90, 90) := by
    norm_num [jointsCheck, OK_RANGES]
  have h2 := joints_ok_strict_ranges_first_violation.2 [90, 1000, 0, 0, 0, 180]
    0 (-90) 90 90 h
  exact ⟨h2.1, h2.2.1⟩

/-- C10: the joint check pairs the reading with the range list and stops at
the shorter of the two, so an empty reading is valid, a reading of any length
is valid iff every present (zipped) axis is in range, and a reported
violation always names an axis present in the reading. -/
theorem joints_ok_short_reading :
    is_robot_joints_ok [] = true
    ∧ (∀ js : List ℚ,
        is_robot_joints_ok js = true ↔
          ∀ p ∈ js.zip OK_RANGES, p.2.1 < p.1 ∧ p.1 < p.2.2)
    ∧ (∀ (js : List ℚ) (k : Nat) (lo hi a : ℚ),
        jointsCheck js OK_RANGES = some (k, lo, hi, a) → k < js.length) := by
  refine ⟨rfl, ?_, ?_⟩
  · intro js
    rw [is_robot_joints_ok, Option.isNone_iff_eq_none, jointsCheck_none_iff]
  · intro js k lo hi a h
    have hget := (jointsCheck_some_spec js OK_RANGES k lo hi a h).1
    obtain ⟨hlt, -⟩ := List.get?_eq_some.mp hget
    exact hlt

/-- Witness for the previous theorem: a one-axis reading out of range yields a
violation on the (present) first axis. -/
theorem joints_ok_short_reading_witness :
    (0 : Nat) < ([100] : List ℚ).length ∧ is_robot_joints_ok [100] = false := by
  have h : jointsCheck [100] OK_RANGES = some (0, -90, 90, 100) := by
    norm_num [jointsCheck, OK_RANGES]
  refine ⟨joints_ok_short_reading.2.2 [100] 0 (-90) 90 100 h, ?_⟩
  simp [is_robot_joints_ok, h]

/-- C3: the safe transit pose's x and y are the arithmetic mean of the two
input poses' x and y, its z is `highest_placed_z + hop_height` whatever the
input poses' own z values, and its orientation axes are those of the next
entry pose. -/
theorem safe_midpoint_frame_components (currentF nextEntryF : Frame) (hz hop : ℚ) :
    (safeMidpointFrame currentF nextEntryF hz hop).point.x
        = (currentF.point.x + nextEntryF.point.x) / 2
    ∧ (safeMidpointFrame currentF nextEntryF hz hop).point.y
        = (currentF.point.y + nextEntryF.point.y) / 2
    ∧ (safeMidpointFrame currentF nextEntryF hz hop).point.z = hz + hop
    ∧ (safeMidpointFrame currentF nextEntryF hz hop).xaxis = nextEntryF.xaxis
    ∧ (safeMidpointFrame currentF nextEntryF hz hop).yaxis = nextEntryF.yaxis :=
  ⟨rfl, rfl, rfl, rfl, rfl⟩

/-- `pressureValues` distributes over trace concatenation. -/
lemma pressureValues_append (a b : List Event) :
    pressureValues (a ++ b) = pressureValues a ++ pressureValues b := by
  simp [pressureValues]

/-- The tracked frame's z after one update is the max of the old z and the new
deposition z. -/
lemma updatedHighest_z (g f : Frame) :
    (updatedHighest (some g) f).point.z = max g.point.z f.point.z := by
  by_cases h : g.point.z < f.point.z
  · simp [updatedHighest, h, max_eq_right (le_of_lt h)]
  · simp [updatedHighest, h, max_eq_left (le_of_not_lt h)]

/-- Folding the update from a set state computes the running maximum of the
deposition z values. -/
lemma highest_foldl_z (fs : List Frame) :
    ∀ g : Frame,
      (fs.foldl (fun h f => some (updatedHighest h f)) (some g)).map
          (fun x => x.point.z)
        = some ((fs.map (fun x => x.point.z)).foldl max g.point.z) := by
  induction fs with
  | nil => intro g; rfl
  | cons f fs ih =>
      intro g
      simp only [List.foldl_cons, List.map_cons]
      rw [ih (updatedHighest (some g) f), updatedHighest_z]

/-- C4: the `highest_placed` state is a running maximum of the deposition z
values processed so far — the first element sets it unconditionally, a later
element replaces it exactly when its z is strictly larger, each step is
non-decreasing in z, and over any processed list the tracked z equals the
fold of `max` over the deposition z values. -/
theorem highest_placed_running_max :
    (∀ f : Frame, updatedHighest none f = f)
    ∧ (∀ g f : Frame, g.point.z < f.point.z → updatedHighest (some g) f = f)
    ∧ (∀ g f : Frame, ¬g.point.z < f.point.z → updatedHighest (some g) f = g)
    ∧ (∀ g f : Frame, g.point.z ≤ (updatedHighest (some g) f).point.z)
    ∧ (∀ (f : Frame) (fs : List Frame),
        (highestAfter (f :: fs)).map (fun x => x.point.z)
          = some ((fs.map (fun x => x.point.z)).foldl max f.point.z))
    ∧ (∀ (fs : List Frame) (g f : Frame), highestAfter fs = some g →
        ∃ g', highestAfter (fs ++ [f]) = some g' ∧ g.point.z ≤ g'.point.z) := by
  refine ⟨fun f => rfl, ?_, ?_, ?_, ?_, ?_⟩
  · intro g f h
    simp [updatedHighest, h]
  · intro g f h
    simp [updatedHighest, h]
  · intro g f
    rw [updatedHighest_z]
    exact le_max_left _ _
  · intro f fs
    show (fs.foldl (fun h f => some (updatedHighest h f)) (some (updatedHighest none f))).map _ = _
    rw [highest_foldl_z]
    rfl
  · intro fs g f h
    refine ⟨updatedHighest (some g) f, ?_, ?_⟩
    · show (fs ++ [f]).foldl (fun h f => some (updatedHighest h f)) none = _
      rw [List.foldl_append]
      show (([f] : List Frame).foldl (fun h f => some (updatedHighest h f)) (highestAfter fs)) = _
      rw [h]
      rfl
    · rw [updatedHighest_z]
      exact le_max_left _ _

/-- Witness for the previous theorem at concrete frames of heights 10 and 25:
the higher one replaces the lower, the lower never replaces the higher, and
appending an element never lowers the tracked z. -/
theorem highest_placed_running_max_witness :
    updatedHighest (some (frameAtZ 10)) (frameAtZ 25) = frameAtZ 25
    ∧ updatedHighest (some (frameAtZ 25)) (frameAtZ 10) = frameAtZ 25
    ∧ ∃ g', highestAfter ([frameAtZ 10] ++ [frameAtZ 25]) = some g'
        ∧ (frameAtZ 10).point.z ≤ g'.point.z := by
  refine ⟨?_, ?_, ?_⟩
  · exact highest_placed_running_max.2.1 _ _ (by norm_num [frameAtZ])
  · exact highest_placed_running_max.2.2.1 _ _ (by norm_num [frameAtZ])
  · exact highest_placed_running_max.2.2.2.2.2 [frameAtZ 10] (frameAtZ 10)
      (frameAtZ 25) rfl

/-- C1 counterexample: with one extrude frame and no travel frames the run
raises the length-mismatch error, yet the emitted command stream already
contains a motion command (the pre-run homing move), so the controller does
not fail before issuing any motion command. -/
theorem length_mismatch_motion_counterexample :
    (mainRun false [defaultFrame] [] 0 noReadings).2 = some lengthMismatchMsg
    ∧ ((mainRun false [defaultFrame] [] 0 noReadings).1.any
        fun e => isMotionCmd e.cmd) = true :=
  ⟨rfl, rfl⟩

/-- C1 amended: on a length mismatch the run raises the fatal configuration
error right after the pre-run commands — no per-element command is ever
issued — but the pre-run itself already contains exactly one motion command,
the homing move, which precedes the length check. -/
theorem length_mismatch_fails_after_prerun (dryRun : Bool)
    (extrudeFrames travelFrames : List Frame) (startFrom : Nat)
    (readings : Nat → List ℚ)
    (h : extrudeFrames.length ≠ travelFrames.length) :
    mainRun dryRun extrudeFrames travelFrames startFrom readings
      = (preRunEvents dryRun, some lengthMismatchMsg)
    ∧ (preRunEvents dryRun).filter (fun e => isMotionCmd e.cmd)
        = [⟨.moveToJoints HOME_POS TRAVEL_SPEED .fine, false⟩] := by
  constructor
  · simp [mainRun, h]
  · cases dryRun <;> rfl

/-- Witness for the previous theorem at a concrete mismatched input. -/
theorem length_mismatch_fails_after_prerun_witness :
    mainRun false [defaultFrame] [] 0 noReadings
      = (preRunEvents false, some lengthMismatchMsg) :=
  (length_mismatch_fails_after_prerun false [defaultFrame] [] 0 noReadings
    (by simp)).1

/-- C5 counterexample: in dry-run mode the per-element cycle still issues the
extrude dwell wait and both de-assert commands, contrary to the claim that
neither the extrude nor the retract step happens at all. -/
theorem dry_run_still_waits_counterexample :
    (⟨.waitTime PAUSE_AT_PT_SECONDS, false⟩ : Event)
        ∈ cycleEvents true defaultFrame defaultFrame defaultFrame none
            defaultFrame [0, 0, 0, 0, 0, 180] 0 1
    ∧ (⟨.setDigital STEPPER_FORWARD_DO 0, false⟩ : Event)
        ∈ cycleEvents true defaultFrame defaultFrame defaultFrame none
            defaultFrame [0, 0, 0, 0, 0, 180] 0 1
    ∧ (⟨.setDigital STEPPER_BACKWARDS_DO 0, false⟩ : Event)
        ∈ cycleEvents true defaultFrame defaultFrame defaultFrame none
            defaultFrame [0, 0, 0, 0, 0, 180] 0 1 := by
  refine ⟨?_, ?_, ?_⟩ <;> simp [cycleEvents]

/-- C5 amended: dry run suppresses exactly the two assert commands and the
0.5 s retract wait; the extrude dwell wait and the two de-assert commands are
still issued once each, and every motion command of the cycle is issued
unchanged. -/
theorem dry_run_suppresses_asserts (entryF exitF extrudeF : Frame)
    (next? : Option Frame) (updated : Frame) (reading : List ℚ) (i n : Nat) :
    (cycleEvents true entryF exitF extrudeF next? updated reading i n).filter
        (fun e => isMotionCmd e.cmd)
      = (cycleEvents false entryF exitF extrudeF next? updated reading i n).filter
        (fun e => isMotionCmd e.cmd)
    ∧ (cycleEvents true entryF exitF extrudeF next? updated reading i n).countP
        (fun e => e.cmd = .setDigital STEPPER_FORWARD_DO 1) = 0
    ∧ (cycleEvents true entryF exitF extrudeF next? updated reading i n).countP
        (fun e => e.cmd = .setDigital STEPPER_BACKWARDS_DO 1) = 0
    ∧ (cycleEvents true entryF exitF extrudeF next? updated reading i n).countP
        (fun e => e.cmd = .waitTime (1 / 2)) = 0
    ∧ (cycleEvents true entryF exitF extrudeF next? updated reading i n).countP
        (fun e => e.cmd = .waitTime PAUSE_AT_PT_SECONDS) = 1
    ∧ (cycleEvents true entryF exitF extrudeF next? updated reading i n).countP
        (fun e => e.cmd = .setDigital STEPPER_FORWARD_DO 0) = 1
    ∧ (cycleEvents true entryF exitF extrudeF next? updated reading i n).countP
        (fun e => e.cmd = .setDigital STEPPER_BACKWARDS_DO 0) = 1 := by
  have hp : ¬((1 : ℚ) / 2 = PAUSE_AT_PT_SECONDS) := by
    norm_num [PAUSE_AT_PT_SECONDS, EXTRUSION_LENGTH, EXTRUSION_SPEED_MM_PER_SEC]
  have hp' : ¬(PAUSE_AT_PT_SECONDS = (2 : ℚ)⁻¹) := by
    norm_num [PAUSE_AT_PT_SECONDS, EXTRUSION_LENGTH, EXTRUSION_SPEED_MM_PER_SEC]
  cases next? <;> cases h : is_robot_joints_ok reading <;>
    refine ⟨?_, ?_, ?_, ?_, ?_, ?_, ?_⟩ <;>
      simp [cycleEvents, transitEvents, h, hp, hp', isMotionCmd,
        List.filter_append, List.filter_cons, List.countP_cons,
        List.countP_append, STEPPER_FORWARD_DO, STEPPER_BACKWARDS_DO]

/-- C6 counterexample: on the length-mismatch exit (not in dry run) the run
terminates with an error while the last command ever sent to the
pressure-supply output asserted it — no de-assertion runs on that path. -/
theorem fatal_exit_pressure_counterexample :
    (mainRun false [defaultFrame] [] 0 noReadings).2.isSome = true
    ∧ (pressureValues (mainRun false [defaultFrame] [] 0 noReadings).1).getLast?
        = some 1 :=
  ⟨rfl, rfl⟩

/-- C6 amended: on the configuration-error exit of a non-dry run the
pressure-supply signal is left asserted (the last pressure command in the
trace sets it to 1); the de-assertion is executed only on the normal
completion path, where the last pressure command sets it to 0. -/
theorem fatal_exit_leaves_pressure_on (extrudeFrames travelFrames : List Frame)
    (startFrom : Nat) (readings : Nat → List ℚ) :
    (extrudeFrames.length ≠ travelFrames.length →
      (mainRun false extrudeFrames travelFrames startFrom readings).2
          = some lengthMismatchMsg
      ∧ (pressureValues
          (mainRun false extrudeFrames travelFrames startFrom readings).1).getLast?
          = some 1)
    ∧ (∀ dryRun : Bool, extrudeFrames.length = travelFrames.length →
        (pressureValues
            (mainRun dryRun extrudeFrames travelFrames startFrom readings).1).getLast?
          = some 0) := by
  constructor
  · intro h
    constructor
    · simp [mainRun, h]
    · simp [mainRun, h]
      rfl
  · intro dryRun h
    have hmain : (mainRun dryRun extrudeFrames travelFrames startFrom readings).1
        = (preRunEvents dryRun
            ++ runFrom dryRun travelFrames extrudeFrames readings
                extrudeFrames.length
                (List.range' startFrom (extrudeFrames.length - startFrom)) none)
          ++ [⟨.moveToJoints HOME_POS TRAVEL_SPEED .fine, false⟩,
              ⟨.setDigital PRESSURE_DO 0, false⟩] := by
      simp [mainRun, h]
    rw [hmain, pressureValues_append]
    have hlast : (pressureValues
        [⟨.moveToJoints HOME_POS TRAVEL_SPEED .fine, false⟩,
         ⟨.setDigital PRESSURE_DO 0, false⟩]) = [0] := rfl
    rw [hlast, List.getLast?_concat]

/-- Witness for the previous theorem at concrete inputs: one mismatched run
and one empty well-formed run. -/
theorem fatal_exit_leaves_pressure_on_witness :
    (pressureValues (mainRun false [defaultFrame] [] 0 noReadings).1).getLast?
        = some 1
    ∧ (pressureValues (mainRun false [] [] 0 noReadings).1).getLast? = some 0 :=
  ⟨((fatal_exit_leaves_pressure_on [defaultFrame] [] 0 noReadings).1
      (by simp)).2,
    (fatal_exit_leaves_pressure_on [] [] 0 noReadings).2 false rfl⟩

/-- C7: the `IndexError`-driven transit section (optional lookup of
`travel_frames[i + 1]`) emits exactly what the spec's explicit bounds check
`i + 1 < n` emits, for every index; at the last element (`i + 1` equal to the
sequence length) no transit move is issued; and a run with matching lengths
terminates without error, its trace ending with the terminal homing move and
pressure de-assert. -/
theorem end_of_sequence_bounds_check_equiv :
    (∀ (entryF : Frame) (travelFrames : List Frame) (updated : Frame) (i : Nat),
        transitEvents entryF travelFrames[i + 1]? updated
          = transitEventsSpec entryF travelFrames updated i)
    ∧ (∀ (entryF : Frame) (travelFrames : List Frame) (updated : Frame) (i : Nat),
        i + 1 = travelFrames.length →
          transitEvents entryF travelFrames[i + 1]? updated = [])
    ∧ (∀ (dryRun : Bool) (extrudeFrames travelFrames : List Frame) (s : Nat)
        (readings : Nat → List ℚ),
        extrudeFrames.length = travelFrames.length →
          (mainRun dryRun extrudeFrames travelFrames s readings).2 = none
          ∧ ∃ loop, (mainRun dryRun extrudeFrames travelFrames s readings).1
              = preRunEvents dryRun ++ loop
                ++ [⟨.moveToJoints HOME_POS TRAVEL_SPEED .fine, false⟩,
                    ⟨.setDigital PRESSURE_DO 0, false⟩]) := by
  refine ⟨?_, ?_, ?_⟩
  · intro entryF travelFrames updated i
    by_cases h : i + 1 < travelFrames.length
    · rw [List.getElem?_eq_getElem h]
      simp [transitEvents, transitEventsSpec, h]
    · rw [List.getElem?_eq_none (Nat.le_of_not_lt h)]
      simp [transitEvents, transitEventsSpec, h]
  · intro entryF travelFrames updated i h
    rw [List.getElem?_eq_none (le_of_eq h.symm)]
    rfl
  · intro dryRun extrudeFrames travelFrames s readings h
    constructor
    · simp [mainRun, h]
    · refine ⟨runFrom dryRun travelFrames extrudeFrames readings
        extrudeFrames.length (List.range' s (extrudeFrames.length - s)) none, ?_⟩
      simp [mainRun, h]

/-- Witness for the previous theorem: a one-element sequence issues no
transit at its only (hence last) element, and an empty well-formed run ends
without error. -/
theorem end_of_sequence_bounds_check_equiv_witness :
    transitEvents defaultFrame ([defaultFrame] : List Frame)[0 + 1]? defaultFrame = []
    ∧ (mainRun false [] [] 0 noReadings).2 = none :=
  ⟨end_of_sequence_bounds_check_equiv.2.1 defaultFrame [defaultFrame]
      defaultFrame 0 rfl,
    (end_of_sequence_bounds_check_equiv.2.2 false [] [] 0 noReadings rfl).1⟩

/-- C8 counterexample: a run over a single element has exactly one awaited
command in its whole trace (the joint read) — the final per-element cycle has
no transit move, so it does not await two commands. -/
theorem awaited_last_cycle_counterexample :
    (((mainRun false [defaultFrame] [defaultFrame] 0 okReadings).1).filter
        (fun e => e.awaited)).length = 1 := rfl

/-- C8 amended: in every per-element cycle with a successor the awaited
commands are exactly the joint read followed by the transit move; in the
final cycle (no successor) the joint read is the only awaited command; every
other command of the cycle is fire-and-forget. -/
theorem awaited_commands_per_cycle (dryRun : Bool)
    (entryF exitF extrudeF nextF updated : Frame) (reading : List ℚ) (i n : Nat) :
    (cycleEvents dryRun entryF exitF extrudeF (some nextF) updated reading i n).filter
        (fun e => e.awaited)
      = [⟨.getJoints, true⟩,
         ⟨.moveToFrame (safeMidpointFrame entryF nextF updated.point.z Z_HOP)
             TRAVEL_SPEED .z5 .joint, true⟩]
    ∧ (cycleEvents dryRun entryF exitF extrudeF none updated reading i n).filter
        (fun e => e.awaited)
      = [⟨.getJoints, true⟩] := by
  cases dryRun <;> cases h : is_robot_joints_ok reading <;>
    constructor <;>
      simp [cycleEvents, transitEvents, h, List.filter_append, List.filter_cons]

/-- The `MoveToFrame` targets of one cycle, in order: entry, deposition,
exit, then the safe midpoint when a successor exists. -/
lemma moveTargets_cycle (dryRun : Bool) (entryF exitF extrudeF : Frame)
    (next? : Option Frame) (updated : Frame) (reading : List ℚ) (i n : Nat) :
    moveTargets (cycleEvents dryRun entryF exitF extrudeF next? updated reading i n)
      = [entryF, extrudeF, exitF]
        ++ (match next? with
            | some nf => [safeMidpointFrame entryF nf updated.point.z Z_HOP]
            | none => []) := by
  cases dryRun <;> cases h : is_robot_joints_ok reading <;> cases next? <;>
    simp [moveTargets, cycleEvents, transitEvents, h, List.filterMap_append]

/-- C9: each loop iteration binds a single travel frame for the index and
passes it both as the entry frame and as the exit frame of the cycle
(`entry_frame = exit_frame = travel_frames[i]`), so the entry move target and
the exit move target of every cycle coincide, and the safe midpoint the cycle
computes from the entry frame is the midpoint from the exit frame. -/
theorem entry_frame_equals_exit_frame (dryRun : Bool)
    (travelFrames extrudeFrames : List Frame) (readings : Nat → List ℚ)
    (n i : Nat) (rest : List Nat) (highest : Option Frame) :
    runFrom dryRun travelFrames extrudeFrames readings n (i :: rest) highest
      = cycleEvents dryRun (travelFrames.getD i defaultFrame)
          (travelFrames.getD i defaultFrame) (extrudeFrames.getD i defaultFrame)
          travelFrames[i + 1]?
          (updatedHighest highest (extrudeFrames.getD i defaultFrame))
          (readings i) i n
        ++ runFrom dryRun travelFrames extrudeFrames readings n rest
            (some (updatedHighest highest (extrudeFrames.getD i defaultFrame)))
    ∧ (moveTargets (cycleEvents dryRun (travelFrames.getD i defaultFrame)
          (travelFrames.getD i defaultFrame) (extrudeFrames.getD i defaultFrame)
          travelFrames[i + 1]?
          (updatedHighest highest (extrudeFrames.getD i defaultFrame))
          (readings i) i n)).get? 0
      = (moveTargets (cycleEvents dryRun (travelFrames.getD i defaultFrame)
          (travelFrames.getD i defaultFrame) (extrudeFrames.getD i defaultFrame)
          travelFrames[i + 1]?
          (updatedHighest highest (extrudeFrames.getD i defaultFrame))
          (readings i) i n)).get? 2 := by
  constructor
  · rfl
  · rw [moveTargets_cycle]
    cases travelFrames[i + 1]? <;> rfl

end BF3DP
